import Mathlib

/-!
Shallow embedding of the media-negotiation and track-binding core of the
pion-derived webrtc repository (files `mediaengine.go`, its test file, and
`track_local_static.go`).

Conventions of the embedding:
* Go slices become `List`, machine integers become `Nat` (none of the verified
  claims exercises wrap-around), strings stay `String`.
* Go methods that mutate their receiver become state-passing functions
  returning the new state; a method that both mutates and can fail returns
  `state × Option WebrtcError`, so that mutations performed before an error
  branch are preserved exactly as in Go.
* External interface values (the per-connection `TrackLocalWriter` write sink)
  are identified by a numeric identity, mirroring Go interface-identity
  comparison; their behaviour is supplied as an explicit `WriteWorld` function
  when a write is executed.
-/

deriving instance DecidableEq for Except

namespace Webrtc

/-- Error values of the embedded code (`errors.go` sentinel errors). -/
inductive WebrtcError where
  | errUnknownType
  | errCodecNotFound
  | errUnsupportedCodec
  | errUnbindFailed
  | errNoPayloaderForCodec
deriving DecidableEq, Repr

/-- Mime type constant from `mediaengine.go`. -/
def mimeTypeH264 : String := "video/h264"

/-- Mime type constant from `mediaengine.go`. -/
def mimeTypeOpus : String := "audio/opus"

/-- Mime type constant from `mediaengine.go`. -/
def mimeTypeVP8 : String := "video/vp8"

/-- Mime type constant from `mediaengine.go`. -/
def mimeTypeVP9 : String := "video/vp9"

/-- Mime type constant from `mediaengine.go`. -/
def mimeTypeG722 : String := "audio/G722"

/-- Mime type constant from `mediaengine.go`. -/
def mimeTypePCMU : String := "audio/PCMU"

/-- Mime type constant from `mediaengine.go`. -/
def mimeTypePCMA : String := "audio/PCMA"

/-- Media kind (`RTPCodecType`): Go defines unspecified = 0, audio, video. -/
inductive RTPCodecType where
  | unspecified
  | audio
  | video
deriving DecidableEq, Repr

/-- One RTCP feedback mechanism (`RTCPFeedback`: Type and Parameter). -/
structure RTCPFeedback where
  typ : String
  parameter : String
deriving DecidableEq, Repr

/-- Codec capability (`RTPCodecCapability`): mime type, clock rate, channel
count, fmtp line and RTCP feedback list. -/
structure RTPCodecCapability where
  mimeType : String
  clockRate : Nat
  channels : Nat
  sdpFmtpLine : String
  rtcpFeedback : List RTCPFeedback
deriving DecidableEq, Repr

/-- Registered codec entry (`RTPCodecParameters`). The type itself lives in
`rtpcodec.go`, which is outside `src/`; its fields are reconstructed from
every use in the sources: the embedded capability and `PayloadType` appear in
`RegisterDefaultCodecs` literals, `statsID` is written by `RegisterCodec` and
read by `collectStats`, and the test file reads a `negotiated` flag, which the
spec describes as the per-entry negotiation mark initialised false. -/
structure RTPCodecParameters where
  rtpCodecCapability : RTPCodecCapability
  payloadType : Nat
  statsID : String := ""
  negotiated : Bool := false
deriving DecidableEq, Repr

/-- Go field promotion: `codec.MimeType` on an `RTPCodecParameters` value. -/
def RTPCodecParameters.mimeType (c : RTPCodecParameters) : String :=
  c.rtpCodecCapability.mimeType

/-- Go field promotion: `codec.ClockRate` on an `RTPCodecParameters` value. -/
def RTPCodecParameters.clockRate (c : RTPCodecParameters) : Nat :=
  c.rtpCodecCapability.clockRate

/-! ## Raw RTP packets and write sinks -/

/-- The RTP packet header fields the embedded code touches (`rtp.Header` is an
external type; `WriteRTP` assigns `SSRC` and `PayloadType`, and the packetizer
stamps a timestamp). Remaining header fields are never read or written by the
code under verification and are represented by `rest`. -/
structure RTPHeader where
  ssrc : Nat
  payloadType : Nat
  timestamp : Nat
  rest : Nat := 0
deriving DecidableEq, Repr

/-- An RTP packet: header plus payload bytes. -/
structure RTPPacket where
  header : RTPHeader
  payload : List Nat
deriving DecidableEq, Repr

/-- One bind result stored by a track (`trackBinding`). The write sink is a Go
interface value compared by identity in `Unbind`; it is embedded as a numeric
identity. -/
structure trackBinding where
  ssrc : Nat
  payloadType : Nat
  writeStream : Nat
deriving DecidableEq, Repr

/-- Behaviour of the external write sinks: given the sink identity, the header
and the payload handed to `TrackLocalWriter.WriteRTP`, the transport either
accepts the packet (returning a byte count) or fails with an error string. -/
abbrev WriteWorld := Nat → RTPHeader → List Nat → Except String Nat

/-- Binding context handed to `Bind`/`Unbind` (`TrackLocalContext` lives
outside `src/`; the code reads exactly `CodecParameters()`, `SSRC()` and
`WriteStream()`). -/
structure TrackLocalContext where
  codecParameters : List RTPCodecParameters
  ssrc : Nat
  writeStream : Nat
deriving DecidableEq, Repr

/-- A TrackLocal with a pre-set codec accepting RTP packets
(`TrackLocalStaticRTP`). -/
structure TrackLocalStaticRTP where
  bindings : List trackBinding
  codec : RTPCodecCapability
  id : String
  streamID : String
deriving DecidableEq, Repr

/-- Constructor `NewTrackLocalStaticRTP` (its error result is always nil in
the source and is dropped here). -/
def newTrackLocalStaticRTP (c : RTPCodecCapability) (id streamID : String) :
    TrackLocalStaticRTP :=
  { bindings := [], codec := c, id := id, streamID := streamID }

/-- Method `TrackLocalStaticRTP.Bind`: scan the context codec list for the
first mime-type match; on a match append a binding (SSRC, matched payload
type, write sink) and succeed, otherwise fail with `ErrUnsupportedCodec`. -/
def TrackLocalStaticRTP.bind (s : TrackLocalStaticRTP) (t : TrackLocalContext) :
    TrackLocalStaticRTP × Option WebrtcError :=
  match t.codecParameters.find? (fun codec => codec.mimeType == s.codec.mimeType) with
  | some codec =>
      ({ s with bindings :=
          s.bindings ++ [{ ssrc := t.ssrc, payloadType := codec.payloadType,
                           writeStream := t.writeStream }] }, none)
  | none => (s, some .errUnsupportedCodec)

/-- Method `TrackLocalStaticRTP.Unbind`: find the first binding whose write
sink equals the context write sink, overwrite it with the last binding and
truncate by one; fail with `ErrUnbindFailed` when no binding matches. -/
def TrackLocalStaticRTP.unbind (s : TrackLocalStaticRTP) (t : TrackLocalContext) :
    TrackLocalStaticRTP × Option WebrtcError :=
  match s.bindings.findIdx? (fun b => b.writeStream == t.writeStream) with
  | some i =>
      ({ s with bindings :=
          (s.bindings.set i (s.bindings.getLastD { ssrc := 0, payloadType := 0, writeStream := 0 })).dropLast },
       none)
  | none => (s, some .errUnbindFailed)

/-- Method `TrackLocalStaticRTP.Kind`: the source returns
`RTPCodecTypeVideo` unconditionally, ignoring the codec of the track. -/
def TrackLocalStaticRTP.kind (_ : TrackLocalStaticRTP) : RTPCodecType :=
  .video

/-- Header stamping performed inside the `WriteRTP` loop: the two assignments
`p.Header.SSRC = uint32(b.ssrc)` and `p.Header.PayloadType = uint8(b.payloadType)`. -/
def stampHeader (h : RTPHeader) (b : trackBinding) : RTPHeader :=
  { h with ssrc := b.ssrc, payloadType := b.payloadType }

/-- Modelled from the spec: `util.FlattenErrs` (package `internal/util`, not
under `src/`). Per the spec, the fan-out "fails overall with an aggregate
error listing every failed binding error" and "succeeds (nil error) only if
every write succeeded": an empty error list flattens to nil, a non-empty one
to the aggregate of its members. -/
def flattenErrs {α : Type} (errs : List α) : Option (List α) :=
  if errs.isEmpty then none else some errs

/-- The loop body of `TrackLocalStaticRTP.WriteRTP`: walk the binding list,
stamping the (mutably threaded) packet header with the SSRC and payload type
of each binding before invoking the write sink of that binding, and collect
the error of every failed sink. The first component records the exact sequence of sink
invocations (sink identity, header handed over, payload), the second the
errors in binding order. -/
def writeRTPCalls (world : WriteWorld) (bs : List trackBinding) (p : RTPPacket) :
    List (Nat × RTPHeader × List Nat) × List String :=
  match bs with
  | [] => ([], [])
  | b :: rest =>
      let h := stampHeader p.header b
      let res := writeRTPCalls world rest { p with header := h }
      match world b.writeStream h p.payload with
      | .ok _ => ((b.writeStream, h, p.payload) :: res.1, res.2)
      | .error e => ((b.writeStream, h, p.payload) :: res.1, e :: res.2)

/-- Method `TrackLocalStaticRTP.WriteRTP`: run the stamping loop over all
current bindings and flatten the collected write errors. -/
def TrackLocalStaticRTP.writeRTP (s : TrackLocalStaticRTP) (world : WriteWorld)
    (p : RTPPacket) : Option (List String) :=
  flattenErrs (writeRTPCalls world s.bindings p).2

/-! ## Sample track -/

/-- Payloader implementations the sample track can select
(`codecs.H264Payloader` and friends from the external `rtp/codecs`
package, represented as tags). `g711` covers both PCMU and PCMA, exactly as
the shared `switch` case does. -/
inductive Payloader where
  | h264
  | opus
  | vp8
  | vp9
  | g722
  | g711
deriving DecidableEq, Repr

/-- The codec-identity switch inside `TrackLocalStaticSample.Bind`: an exact
mime-type match against the fixed supported set selects a payloader; any
other mime type has none (the `default` branch). -/
def payloaderForCodec (mimeType : String) : Option Payloader :=
  if mimeType == mimeTypeH264 then some .h264
  else if mimeType == mimeTypeOpus then some .opus
  else if mimeType == mimeTypeVP8 then some .vp8
  else if mimeType == mimeTypeVP9 then some .vp9
  else if mimeType == mimeTypeG722 then some .g722
  else if mimeType == mimeTypePCMU || mimeType == mimeTypePCMA then some .g711
  else none

/-- Modelled from the spec: the constant `rtpOutboundMTU` is defined outside
`src/`; the spec describes it only as "a fixed outbound packet-size ceiling"
and no claim depends on its value. -/
def rtpOutboundMTU : Nat := 1200

/-- The packetizer configuration stored by `rtp.NewPacketizer(mtu, pt, ssrc,
payloader, sequencer, clockRate)`. The randomized sequencer is external
nondeterministic state never inspected by the embedded code and is omitted. -/
structure Packetizer where
  mtu : Nat
  payloadType : Nat
  ssrc : Nat
  payloader : Payloader
  clockRate : Nat
deriving DecidableEq, Repr

/-- A TrackLocal with a pre-set codec accepting samples
(`TrackLocalStaticSample`): an atomically stored optional packetizer plus the
wrapped raw-packet track. -/
structure TrackLocalStaticSample where
  packetizer : Option Packetizer
  rtpTrack : TrackLocalStaticRTP
deriving DecidableEq, Repr

/-- Constructor `NewTrackLocalStaticSample` (its error result is always nil in
the source and is dropped here). -/
def newTrackLocalStaticSample (c : RTPCodecCapability) (id streamID : String) :
    TrackLocalStaticSample :=
  { packetizer := none, rtpTrack := newTrackLocalStaticRTP c id streamID }

/-- Method `TrackLocalStaticSample.Kind`: delegates to the wrapped track. -/
def TrackLocalStaticSample.kind (s : TrackLocalStaticSample) : RTPCodecType :=
  s.rtpTrack.kind

/-- Method `TrackLocalStaticSample.Bind`, translated branch for branch: first
delegate to the wrapped raw track (keeping its mutation, propagating its
error); then select a payloader by mime type, failing with
`ErrNoPayloaderForCodec` (the wrapped-track append is not rolled back); then
store a fresh packetizer; finally the source delegates to the wrapped track a
second time (`return s.rtpTrack.Bind(t)`) instead of returning nil, which
appends a second binding. -/
def TrackLocalStaticSample.bind (s : TrackLocalStaticSample)
    (t : TrackLocalContext) : TrackLocalStaticSample × Option WebrtcError :=
  let r1 := s.rtpTrack.bind t
  let s1 := { s with rtpTrack := r1.1 }
  match r1.2 with
  | some e => (s1, some e)
  | none =>
    match payloaderForCodec s1.rtpTrack.codec.mimeType with
    | none => (s1, some .errNoPayloaderForCodec)
    | some pl =>
      let pz : Packetizer :=
        { mtu := rtpOutboundMTU, payloadType := 0, ssrc := 0,
          payloader := pl, clockRate := s1.rtpTrack.codec.clockRate }
      let s2 := { s1 with packetizer := some pz }
      let r2 := s2.rtpTrack.bind t
      ({ s2 with rtpTrack := r2.1 }, r2.2)

/-- Method `TrackLocalStaticSample.Unbind`: delegates to the wrapped track. -/
def TrackLocalStaticSample.unbind (s : TrackLocalStaticSample)
    (t : TrackLocalContext) : TrackLocalStaticSample × Option WebrtcError :=
  let r := s.rtpTrack.unbind t
  ({ s with rtpTrack := r.1 }, r.2)

/-- A media sample (`media.Sample`): payload bytes plus a duration. The Go
type `time.Duration` is an integer nanosecond count; it is embedded as such. -/
structure Sample where
  data : List Nat
  durationNs : Nat
deriving DecidableEq, Repr

/-- The tick computation of `WriteSample`:
`samples := sample.Duration.Seconds() * float64(clockRate)` followed by the
Go conversion `uint32(samples)`, which truncates toward zero. `Seconds()`
divides the nanosecond count by 1e9. The float64 arithmetic is embedded as
exact arithmetic (`durationNs * clockRate / 1e9` in `Nat`, i.e. the floor);
at every concrete input appearing in this development the double-precision
result and the exact result agree. -/
def sampleTicks (durationNs clockRate : Nat) : Nat :=
  durationNs * clockRate / 1000000000

/-- The tick computation as the specification words it: `durationSeconds ×
clockRateHz` "rounded to the nearest integer tick count" (half rounds up;
no input considered here is a tie). Stated only to be compared against
`sampleTicks`, the computation the source performs. -/
def sampleTicksNearest (durationNs clockRate : Nat) : Nat :=
  (durationNs * clockRate + 500000000) / 1000000000

/-- Behaviour of the external `rtp.Packetizer.Packetize`: from the stored
packetizer state, the sample data and the tick advance, produce the RTP
packets to write. -/
abbrev PacketizeFn := Packetizer → List Nat → Nat → List RTPPacket

/-- Method `TrackLocalStaticSample.WriteSample`: a silent no-op while no
packetizer is stored; otherwise compute the tick advance, ask the packetizer
to fragment the data, write every resulting packet through the
`WriteRTP` of the wrapped track collecting the per-packet aggregate errors,
and flatten
those. -/
def TrackLocalStaticSample.writeSample (s : TrackLocalStaticSample)
    (pk : PacketizeFn) (world : WriteWorld) (sample : Sample) :
    Option (List (List String)) :=
  match s.packetizer with
  | none => none
  | some p =>
    let samples := sampleTicks sample.durationNs s.rtpTrack.codec.clockRate
    let packets := pk p sample.data samples
    let writeErrs := packets.filterMap (fun q => s.rtpTrack.writeRTP world q)
    flattenErrs writeErrs

/-! ## Media engine: header extensions -/

/-- Registry entry for one header extension (`mediaEngineHeaderExtension`). -/
structure mediaEngineHeaderExtension where
  ok : Bool
  id : Nat
  uri : String
  isAudio : Bool
  isVideo : Bool
deriving DecidableEq, Repr

/-- The Go zero value `mediaEngineHeaderExtension\x7b\x7d` appended before the
fields are filled in. -/
def emptyHeaderExtension : mediaEngineHeaderExtension :=
  { ok := false, id := 0, uri := "", isAudio := false, isVideo := false }

/-- Header extension capability (`RTPHeaderExtensionCapability`, defined
outside `src/`; the code reads exactly its `URI` field). -/
structure RTPHeaderExtensionCapability where
  uri : String
deriving DecidableEq, Repr

/-- The lookup loop of `RegisterHeaderExtension`: walk the whole catalog and
remember the index of a URI match; because the loop does not break, the last
matching index wins. `none` plays the role of the Go sentinel `-1`. -/
def lastMatchIdx (uri : String) : List mediaEngineHeaderExtension → Option Nat
  | [] => none
  | e :: rest =>
    match lastMatchIdx uri rest with
    | some i => some (i + 1)
    | none => if e.uri == uri then some 0 else none

/-- The field updates `RegisterHeaderExtension` performs on the selected
entry: set the kind flag for the given type (audio and video each set only
their own flag; any other type sets neither), then overwrite `uri` and set
`id` to the entry index. -/
def applyHeaderExtension (e : mediaEngineHeaderExtension) (uri : String)
    (typ : RTPCodecType) (idx : Nat) : mediaEngineHeaderExtension :=
  match typ with
  | .audio => { e with isAudio := true, uri := uri, id := idx }
  | .video => { e with isVideo := true, uri := uri, id := idx }
  | .unspecified => { e with uri := uri, id := idx }

/-- List-level body of `RegisterHeaderExtension`: locate the entry by URI
(last match wins), appending a zero-valued entry when absent, then apply the
field updates at that index. -/
def registerHeaderExtensionList (hes : List mediaEngineHeaderExtension)
    (uri : String) (typ : RTPCodecType) : List mediaEngineHeaderExtension :=
  match lastMatchIdx uri hes with
  | some i => hes.set i (applyHeaderExtension (hes.getD i emptyHeaderExtension) uri typ i)
  | none =>
    let hes2 := hes ++ [emptyHeaderExtension]
    let i := hes2.length - 1
    hes2.set i (applyHeaderExtension (hes2.getD i emptyHeaderExtension) uri typ i)

/-! ## Media engine: registry state and operations -/

/-- The codec and header-extension registry (`MediaEngine`). -/
structure MediaEngine where
  negotiatedVideo : Bool := false
  negotiatedAudio : Bool := false
  videoCodecs : List RTPCodecParameters := []
  audioCodecs : List RTPCodecParameters := []
  headerExtensions : List mediaEngineHeaderExtension := []
deriving DecidableEq, Repr

/-- The Go zero value `MediaEngine\x7b\x7d`. -/
def emptyMediaEngine : MediaEngine := {}

/-- Method `MediaEngine.RegisterCodec`: mint a stats identifier, then append
the codec to the catalog of its kind; any other kind fails with
`ErrUnknownType`. The source derives the identifier from the wall clock
(`time.Now().UnixNano()`), external nondeterministic input no claim depends
on, embedded as a fixed string. -/
def MediaEngine.registerCodec (m : MediaEngine) (codec : RTPCodecParameters)
    (typ : RTPCodecType) : Except WebrtcError MediaEngine :=
  let codec2 := { codec with statsID := "RTPCodec" }
  match typ with
  | .audio => .ok { m with audioCodecs := m.audioCodecs ++ [codec2] }
  | .video => .ok { m with videoCodecs := m.videoCodecs ++ [codec2] }
  | .unspecified => .error .errUnknownType

/-- Method `MediaEngine.RegisterHeaderExtension` (its error result is always
nil in the source and is dropped here). -/
def MediaEngine.registerHeaderExtension (m : MediaEngine)
    (extension : RTPHeaderExtensionCapability) (typ : RTPCodecType) : MediaEngine :=
  { m with headerExtensions :=
      registerHeaderExtensionList m.headerExtensions extension.uri typ }

/-- Method `MediaEngine.getCodecByPayload`: linear scan of the video catalog,
then the audio catalog; `ErrCodecNotFound` when neither contains the payload
type. -/
def MediaEngine.getCodecByPayload (m : MediaEngine) (payloadType : Nat) :
    Except WebrtcError RTPCodecParameters :=
  match m.videoCodecs.find? (fun codec => codec.payloadType == payloadType) with
  | some codec => .ok codec
  | none =>
    match m.audioCodecs.find? (fun codec => codec.payloadType == payloadType) with
    | some codec => .ok codec
    | none => .error .errCodecNotFound

/-- Method `MediaEngine.negotiatedCodecsForType`: returns the audio catalog
for audio, the video catalog for video, nil otherwise — with no filtering of
any kind, despite its doc comment promising "a properly filtered view". -/
def MediaEngine.negotiatedCodecsForType (m : MediaEngine) (typ : RTPCodecType) :
    List RTPCodecParameters :=
  if typ == .audio then m.audioCodecs
  else if typ == .video then m.videoCodecs
  else []

/-! ## Media engine: remote description update -/

/-- Media name of one media section (`sdp.MediaName`; the code reads exactly
its `Media` string). -/
structure MediaName where
  media : String
deriving DecidableEq, Repr

/-- One media section of a parsed session description
(`sdp.MediaDescription`). The code under verification reads only the media
name; the rtpmap/fmtp attributes are never consulted (the body that would is
an unfinished TODO in the source). -/
structure MediaDescription where
  mediaName : MediaName
deriving DecidableEq, Repr

/-- A parsed session description (`sdp.SessionDescription`; the code reads
exactly its media description list). -/
structure SessionDescription where
  mediaDescriptions : List MediaDescription
deriving DecidableEq, Repr

/-- Case folding of one character, by code point: ASCII upper-case letters
map to their lower-case code, everything else to itself. -/
def foldCharNat (c : Char) : Nat :=
  if 65 ≤ c.toNat && c.toNat ≤ 90 then c.toNat + 32 else c.toNat

/-- ASCII-adequate embedding of `strings.EqualFold` as used on media-kind
strings: equality of the case-folded code-point sequences. -/
def equalFold (a b : String) : Bool :=
  a.data.map foldCharNat == b.data.map foldCharNat

/-- The loop of `MediaEngine.updateFromRemoteDescription` over the media
sections: the first audio section sets `negotiatedAudio`, the first video
section sets `negotiatedVideo`, every other section is skipped; nothing else
happens — the codec-matching body (set negotiated flags, rewrite payload
types) is an unfinished TODO comment in the source. -/
def updateLoop (m : MediaEngine) : List MediaDescription → MediaEngine
  | [] => m
  | media :: rest =>
    if !m.negotiatedAudio && equalFold media.mediaName.media "audio" then
      updateLoop { m with negotiatedAudio := true } rest
    else if !m.negotiatedVideo && equalFold media.mediaName.media "video" then
      updateLoop { m with negotiatedVideo := true } rest
    else
      updateLoop m rest

/-- Method `MediaEngine.updateFromRemoteDescription` (its error result is
always nil in the source and is dropped here). -/
def MediaEngine.updateFromRemoteDescription (m : MediaEngine)
    (desc : SessionDescription) : MediaEngine :=
  updateLoop m desc.mediaDescriptions

/-! ## Media engine: default codec registration -/

/-- The audio codec literals of `RegisterDefaultCodecs`, in source order. -/
def defaultAudioCodecs : List RTPCodecParameters :=
  [ { rtpCodecCapability :=
        { mimeType := mimeTypeOpus, clockRate := 48000, channels := 2,
          sdpFmtpLine := "minptime=10;useinbandfec=1",
          rtcpFeedback := [{ typ := "transport-cc", parameter := "" }] },
      payloadType := 111 },
    { rtpCodecCapability :=
        { mimeType := mimeTypeG722, clockRate := 8000, channels := 0,
          sdpFmtpLine := "", rtcpFeedback := [] },
      payloadType := 9 },
    { rtpCodecCapability :=
        { mimeType := mimeTypePCMU, clockRate := 8000, channels := 0,
          sdpFmtpLine := "", rtcpFeedback := [] },
      payloadType := 0 },
    { rtpCodecCapability :=
        { mimeType := mimeTypePCMA, clockRate := 8000, channels := 0,
          sdpFmtpLine := "", rtcpFeedback := [] },
      payloadType := 8 } ]

/-- The shared RTCP feedback list of the default video codecs. -/
def videoRTCPFeedback : List RTCPFeedback :=
  [ { typ := "goog-remb", parameter := "" },
    { typ := "transport-cc", parameter := "" },
    { typ := "ccm", parameter := "fir" },
    { typ := "nack", parameter := "" },
    { typ := "nack", parameter := "pli" } ]

/-- Abbreviation for one default video codec literal. -/
def mkVideoCodec (mime : String) (fmtp : String) (fb : List RTCPFeedback)
    (pt : Nat) : RTPCodecParameters :=
  { rtpCodecCapability :=
      { mimeType := mime, clockRate := 90000, channels := 0,
        sdpFmtpLine := fmtp, rtcpFeedback := fb },
    payloadType := pt }

/-- The video codec literals of `RegisterDefaultCodecs`, in source order.
Note the H264 42001f packetization-mode-0 entry and its rtx companion appear
twice (payload types 127 and 120 each registered twice). -/
def defaultVideoCodecs : List RTPCodecParameters :=
  [ mkVideoCodec mimeTypeVP8 "" videoRTCPFeedback 96,
    mkVideoCodec "video/rtx" "apt=96" [] 97,
    mkVideoCodec mimeTypeVP9 "profile-id=0" videoRTCPFeedback 98,
    mkVideoCodec "video/rtx" "apt=98" [] 99,
    mkVideoCodec mimeTypeVP9 "profile-id=1" videoRTCPFeedback 100,
    mkVideoCodec "video/rtx" "apt=100" [] 101,
    mkVideoCodec mimeTypeH264
      "level-asymmetry-allowed=1;packetization-mode=1;profile-level-id=42001f"
      videoRTCPFeedback 102,
    mkVideoCodec "video/rtx" "apt=102" [] 121,
    mkVideoCodec mimeTypeH264
      "level-asymmetry-allowed=1;packetization-mode=0;profile-level-id=42001f"
      videoRTCPFeedback 127,
    mkVideoCodec "video/rtx" "apt=127" [] 120,
    mkVideoCodec mimeTypeH264
      "level-asymmetry-allowed=1;packetization-mode=1;profile-level-id=42e01f"
      videoRTCPFeedback 125,
    mkVideoCodec "video/rtx" "apt=125" [] 107,
    mkVideoCodec mimeTypeH264
      "level-asymmetry-allowed=1;packetization-mode=0;profile-level-id=42e01f"
      videoRTCPFeedback 108,
    mkVideoCodec "video/rtx" "apt=108" [] 109,
    mkVideoCodec mimeTypeH264
      "level-asymmetry-allowed=1;packetization-mode=0;profile-level-id=42001f"
      videoRTCPFeedback 127,
    mkVideoCodec "video/rtx" "apt=127" [] 120,
    mkVideoCodec mimeTypeH264
      "level-asymmetry-allowed=1;packetization-mode=1;profile-level-id=640032"
      videoRTCPFeedback 123,
    mkVideoCodec "video/rtx" "apt=123" [] 118,
    mkVideoCodec "video/ulpfec" "" [] 116 ]

/-- The audio header extension URIs of `RegisterDefaultCodecs`. -/
def defaultAudioExtensions : List String :=
  [ "urn:ietf:params:rtp-hdrext:ssrc-audio-level",
    "http://www.webrtc.org/experiments/rtp-hdrext/abs-send-time",
    "http://www.ietf.org/id/draft-holmer-rmcat-transport-wide-cc-extensions-01",
    "urn:ietf:params:rtp-hdrext:sdes:mid",
    "urn:ietf:params:rtp-hdrext:sdes:rtp-stream-id",
    "urn:ietf:params:rtp-hdrext:sdes:repaired-rtp-stream-id" ]

/-- The video header extension URIs of `RegisterDefaultCodecs`. -/
def defaultVideoExtensions : List String :=
  [ "urn:ietf:params:rtp-hdrext:toffset",
    "http://www.webrtc.org/experiments/rtp-hdrext/abs-send-time",
    "urn:3gpp:video-orientation",
    "http://www.ietf.org/id/draft-holmer-rmcat-transport-wide-cc-extensions-01",
    "http://www.webrtc.org/experiments/rtp-hdrext/playout-delay",
    "http://www.webrtc.org/experiments/rtp-hdrext/video-content-type",
    "http://www.webrtc.org/experiments/rtp-hdrext/video-timing",
    "http://www.webrtc.org/experiments/rtp-hdrext/color-space",
    "urn:ietf:params:rtp-hdrext:sdes:mid",
    "urn:ietf:params:rtp-hdrext:sdes:rtp-stream-id",
    "urn:ietf:params:rtp-hdrext:sdes:repaired-rtp-stream-id" ]

/-- One registration loop of `RegisterDefaultCodecs` over codec literals,
with the early return on a registration error. -/
def registerCodecList (m : MediaEngine) (typ : RTPCodecType) :
    List RTPCodecParameters → Except WebrtcError MediaEngine
  | [] => .ok m
  | codec :: rest =>
    match m.registerCodec codec typ with
    | .error e => .error e
    | .ok m2 => registerCodecList m2 typ rest

/-- One registration loop of `RegisterDefaultCodecs` over header extension
URIs (header extension registration never fails, so the early-return check in
the source is vacuous). -/
def registerExtensionList (m : MediaEngine) (typ : RTPCodecType)
    (uris : List String) : MediaEngine :=
  uris.foldl (fun mm uri => mm.registerHeaderExtension { uri := uri } typ) m

/-- Method `MediaEngine.RegisterDefaultCodecs`: register the default audio
codecs, audio header extensions, video codecs and video header extensions, in
that order, stopping at the first codec registration error. -/
def MediaEngine.registerDefaultCodecs (m : MediaEngine) :
    Except WebrtcError MediaEngine :=
  match registerCodecList m .audio defaultAudioCodecs with
  | .error e => .error e
  | .ok m1 =>
    let m2 := registerExtensionList m1 .audio defaultAudioExtensions
    match registerCodecList m2 .video defaultVideoCodecs with
    | .error e => .error e
    | .ok m3 => .ok (registerExtensionList m3 .video defaultVideoExtensions)

/-- The registry produced by `RegisterDefaultCodecs` on a zero-valued
`MediaEngine` (the error branch is unreachable: every registration uses a
known kind, as the lemma `registerDefaultCodecs_ok` below records). -/
def defaultMediaEngine : MediaEngine :=
  match emptyMediaEngine.registerDefaultCodecs with
  | .ok m => m
  | .error _ => emptyMediaEngine

/-! ## Concrete values used by the verification -/

/-- The default opus capability (first entry of the default audio codecs). -/
def opusCapability : RTPCodecCapability :=
  { mimeType := mimeTypeOpus, clockRate := 48000, channels := 2,
    sdpFmtpLine := "minptime=10;useinbandfec=1",
    rtcpFeedback := [{ typ := "transport-cc", parameter := "" }] }

/-- Negotiated opus codec parameters at payload type 111, as a binding
context would carry them. -/
def opusParameters111 : RTPCodecParameters :=
  { rtpCodecCapability := opusCapability, payloadType := 111 }

/-- A binding context offering opus at payload type 111 over write sink 7. -/
def demoContext : TrackLocalContext :=
  { codecParameters := [opusParameters111], ssrc := 1234, writeStream := 7 }

/-- A fresh opus sample track. -/
def demoSampleTrack : TrackLocalStaticSample :=
  newTrackLocalStaticSample opusCapability "audio" "pion"

/-- A fresh opus raw-packet track. -/
def demoRTPTrack : TrackLocalStaticRTP :=
  newTrackLocalStaticRTP opusCapability "audio" "pion"

/-- A capability outside the supported payloader set. -/
def av1Capability : RTPCodecCapability :=
  { mimeType := "video/av1", clockRate := 90000, channels := 0,
    sdpFmtpLine := "", rtcpFeedback := [] }

/-- Codec parameters for the av1 capability. -/
def av1Parameters : RTPCodecParameters :=
  { rtpCodecCapability := av1Capability, payloadType := 45 }

/-- A binding context offering av1, matching the av1 track mime type. -/
def av1Context : TrackLocalContext :=
  { codecParameters := [av1Parameters], ssrc := 99, writeStream := 3 }

/-- A fresh av1 sample track. -/
def av1SampleTrack : TrackLocalStaticSample :=
  newTrackLocalStaticSample av1Capability "video" "pion"

/-- A remote session description with exactly one audio media section (the
rtpmap attribute `111 opus/48000/2` of the corresponding repository test is
irrelevant to the embedded code, which never reads attributes). -/
def opusRemoteDescription : SessionDescription :=
  { mediaDescriptions := [{ mediaName := { media := "audio" } }] }

/-- The default registry after updating from `opusRemoteDescription`. -/
def negotiatedOpusEngine : MediaEngine :=
  defaultMediaEngine.updateFromRemoteDescription opusRemoteDescription

/-- The error branch of `defaultMediaEngine` is indeed unreachable. -/
theorem registerDefaultCodecs_ok :
    emptyMediaEngine.registerDefaultCodecs = .ok defaultMediaEngine := by
  decide

/-! ## Claim C9: Kind is always video -/

/-- C9: for every raw-packet track, `Kind()` returns video regardless of the
codec the track was constructed with, the sample track delegates `Kind` to
the wrapped raw track, and hence every sample track also reports video. -/
theorem kind_is_always_video (s : TrackLocalStaticRTP)
    (ss : TrackLocalStaticSample) :
    s.kind = RTPCodecType.video ∧ ss.kind = ss.rtpTrack.kind ∧
    ss.kind = RTPCodecType.video :=
  ⟨rfl, rfl, rfl⟩

/-! ## Claim C4: payload-type uniqueness per kind -/

/-- C4 counterexample: after `RegisterDefaultCodecs` alone, the video catalog
payload types are not pairwise distinct (127 and 120 are each registered
twice), refuting per-kind uniqueness at any point in time. -/
theorem default_video_payloadTypes_not_distinct :
    ¬ (defaultMediaEngine.videoCodecs.map (fun c => c.payloadType)).Nodup := by
  decide

/-- C4 amended: `RegisterCodec` performs no duplicate check; after
`RegisterDefaultCodecs` the audio payload types are pairwise distinct, but
the video catalog registers payload types 127 and 120 twice each (the
duplicated H264 42001f packetization-mode-0 entry and its rtx companion). -/
theorem default_payloadTypes_audio_distinct_video_duplicated :
    (defaultMediaEngine.audioCodecs.map (fun c => c.payloadType)).Nodup ∧
    defaultMediaEngine.videoCodecs.map (fun c => c.payloadType) =
      [96, 97, 98, 99, 100, 101, 102, 121, 127, 120, 125, 107, 108, 109,
       127, 120, 123, 118, 116] ∧
    (defaultMediaEngine.videoCodecs.map (fun c => c.payloadType)).count 127 = 2 ∧
    (defaultMediaEngine.videoCodecs.map (fun c => c.payloadType)).count 120 = 2 := by
  decide

/-! ## Claim C1: updateFromRemoteDescription and the opus entry -/

/-- C1: updating the default registry from a remote description with one
audio section mapping payload type 111 to opus sets `negotiatedAudio` and
leaves `negotiatedVideo` false, but the codec catalogs are untouched: the
opus entry found at payload type 111 still has `negotiated = false` (the
matching body of `updateFromRemoteDescription` is an unfinished TODO), even
though the repository test asserts `negotiated = true` after this exact
update. -/
theorem updateFromRemoteDescription_ignores_codecs :
    negotiatedOpusEngine.negotiatedAudio = true ∧
    negotiatedOpusEngine.negotiatedVideo = false ∧
    negotiatedOpusEngine.audioCodecs = defaultMediaEngine.audioCodecs ∧
    negotiatedOpusEngine.videoCodecs = defaultMediaEngine.videoCodecs ∧
    negotiatedOpusEngine.getCodecByPayload 111 =
      .ok { rtpCodecCapability := opusCapability, payloadType := 111,
            statsID := "RTPCodec", negotiated := false } ∧
    negotiatedOpusEngine.audioCodecs.countP (fun c => c.negotiated) = 0 := by
  decide

/-! ## Claim C3: negotiatedCodecsForType filtering -/

/-- C3: before any negotiation `negotiatedCodecsForType` returns the full
catalog of the kind, as claimed; but after `updateFromRemoteDescription` has
negotiated audio it still returns the full four-entry audio catalog although
zero entries have `negotiated = true`, contradicting the claimed filtering
(and the source doc comment promising a properly filtered view). -/
theorem negotiatedCodecsForType_never_filters :
    defaultMediaEngine.negotiatedCodecsForType .audio =
      defaultMediaEngine.audioCodecs ∧
    defaultMediaEngine.negotiatedCodecsForType .video =
      defaultMediaEngine.videoCodecs ∧
    negotiatedOpusEngine.negotiatedAudio = true ∧
    negotiatedOpusEngine.negotiatedCodecsForType .audio =
      negotiatedOpusEngine.audioCodecs ∧
    (negotiatedOpusEngine.audioCodecs.filter (fun c => c.negotiated)).length = 0 ∧
    (negotiatedOpusEngine.negotiatedCodecsForType .audio).length = 4 := by
  decide

/-! ## Claim C2: sample Bind delegates twice -/

/-- C2: one successful `Bind` on a fresh opus sample track appends two
bindings to the wrapped raw track, not one: the source delegates to
`rtpTrack.Bind` at the start and then again in its return statement. -/
theorem sample_bind_appends_two_bindings :
    demoSampleTrack.rtpTrack.bindings.length = 0 ∧
    (demoSampleTrack.bind demoContext).2 = none ∧
    (demoSampleTrack.bind demoContext).1.rtpTrack.bindings.length = 2 ∧
    (demoSampleTrack.bind demoContext).1.rtpTrack.bindings =
      [{ ssrc := 1234, payloadType := 111, writeStream := 7 },
       { ssrc := 1234, payloadType := 111, writeStream := 7 }] := by
  decide

/-! ## Claim C6: Bind then Unbind -/

/-- C6: for the raw-packet track, a successful `Bind` followed by `Unbind`
with the same context does return the binding list to its pre-Bind size, and
`Unbind` on a never-bound context fails with `ErrUnbindFailed` leaving the
list unchanged; but for the sample track the same experiment leaves one extra
binding (its `Bind` appended two), so the claimed round-trip fails on sample
tracks. -/
theorem sample_bind_unbind_leaves_extra_binding :
    ((demoRTPTrack.bind demoContext).1.unbind demoContext).2 = none ∧
    ((demoRTPTrack.bind demoContext).1.unbind demoContext).1.bindings.length = 0 ∧
    (demoRTPTrack.unbind demoContext).2 = some .errUnbindFailed ∧
    (demoRTPTrack.unbind demoContext).1 = demoRTPTrack ∧
    ((demoSampleTrack.bind demoContext).1.unbind demoContext).2 = none ∧
    ((demoSampleTrack.bind demoContext).1.unbind demoContext).1.rtpTrack.bindings.length = 1 ∧
    (demoSampleTrack.unbind demoContext).2 = some .errUnbindFailed := by
  decide

/-! ## Claim C10: failed sample Bind is not atomic -/

/-- C10: when the payloader switch has no case for the track codec but the
context codec list does match the mime type, `Bind` fails with
`ErrNoPayloaderForCodec` after the wrapped raw track has already appended a
binding, and the previously stored packetizer is unchanged. -/
theorem sample_bind_failure_not_atomic (s : TrackLocalStaticSample)
    (t : TrackLocalContext)
    (hp : payloaderForCodec s.rtpTrack.codec.mimeType = none)
    (hm : (t.codecParameters.find?
        (fun codec => codec.mimeType == s.rtpTrack.codec.mimeType)).isSome = true) :
    (s.bind t).2 = some WebrtcError.errNoPayloaderForCodec ∧
    (s.bind t).1.rtpTrack.bindings.length = s.rtpTrack.bindings.length + 1 ∧
    (s.bind t).1.packetizer = s.packetizer := by
  obtain ⟨c, hc⟩ := Option.isSome_iff_exists.mp hm
  simp [TrackLocalStaticSample.bind, TrackLocalStaticRTP.bind, hc, hp]

/-- C10 witness: the av1 sample track bound against a context offering av1. -/
theorem sample_bind_failure_not_atomic_witness :
    (av1SampleTrack.bind av1Context).2 = some WebrtcError.errNoPayloaderForCodec ∧
    (av1SampleTrack.bind av1Context).1.rtpTrack.bindings.length =
      av1SampleTrack.rtpTrack.bindings.length + 1 ∧
    (av1SampleTrack.bind av1Context).1.packetizer = av1SampleTrack.packetizer :=
  sample_bind_failure_not_atomic av1SampleTrack av1Context (by decide) (by decide)

/-! ## Claim C5: WriteRTP fan-out -/

/-- Restamping is idempotent over the threaded header: the second stamping
overwrites exactly the fields the first one wrote. -/
theorem stampHeader_stampHeader (h : RTPHeader) (b b2 : trackBinding) :
    stampHeader (stampHeader h b) b2 = stampHeader h b2 :=
  rfl

/-- The invocation trace of the `WriteRTP` loop: one sink call per binding,
in order, each with the header stamped with the SSRC and payload type of that
binding and the unchanged payload. -/
theorem writeRTPCalls_fst (world : WriteWorld) :
    ∀ (bs : List trackBinding) (p : RTPPacket),
    (writeRTPCalls world bs p).1 =
      bs.map (fun b => (b.writeStream, stampHeader p.header b, p.payload))
  | [], _ => rfl
  | b :: rest, p => by
    have ih := writeRTPCalls_fst world rest { p with header := stampHeader p.header b }
    cases hw : world b.writeStream (stampHeader p.header b) p.payload <;>
      simp [writeRTPCalls, hw, ih, stampHeader_stampHeader]

/-- The collected errors of the `WriteRTP` loop: exactly the errors of the
failing sinks, in binding order. -/
theorem writeRTPCalls_snd (world : WriteWorld) :
    ∀ (bs : List trackBinding) (p : RTPPacket),
    (writeRTPCalls world bs p).2 =
      bs.filterMap (fun b =>
        match world b.writeStream (stampHeader p.header b) p.payload with
        | .ok _ => none
        | .error e => some e)
  | [], _ => rfl
  | b :: rest, p => by
    have ih := writeRTPCalls_snd world rest { p with header := stampHeader p.header b }
    cases hw : world b.writeStream (stampHeader p.header b) p.payload <;>
      simp [writeRTPCalls, hw, ih, stampHeader_stampHeader]

/-- Flattening yields nil exactly for an empty error list. -/
theorem flattenErrs_eq_none {α : Type} (l : List α) :
    flattenErrs l = none ↔ l = [] := by
  unfold flattenErrs
  cases l <;> simp

/-- C5: `WriteRTP` invokes the write sink of every current binding exactly
once, with the packet header stamped beforehand with the SSRC and payload
type of that binding; it keeps going when a write fails, the aggregate error
collects precisely the errors of the failing bindings in order, and the call
returns nil exactly when the write of every binding succeeded. -/
theorem writeRTP_stamps_and_fans_out (world : WriteWorld)
    (s : TrackLocalStaticRTP) (p : RTPPacket) :
    (writeRTPCalls world s.bindings p).1 =
      s.bindings.map (fun b => (b.writeStream, stampHeader p.header b, p.payload)) ∧
    (writeRTPCalls world s.bindings p).2 =
      s.bindings.filterMap (fun b =>
        match world b.writeStream (stampHeader p.header b) p.payload with
        | .ok _ => none
        | .error e => some e) ∧
    (s.writeRTP world p = none ↔
      ∀ b ∈ s.bindings,
        (world b.writeStream (stampHeader p.header b) p.payload).isOk = true) := by
  refine ⟨writeRTPCalls_fst world s.bindings p, writeRTPCalls_snd world s.bindings p, ?_⟩
  simp only [TrackLocalStaticRTP.writeRTP]
  rw [writeRTPCalls_snd world s.bindings p, flattenErrs_eq_none,
    List.filterMap_eq_nil_iff]
  refine forall₂_congr fun b _ => ?_
  cases hw : world b.writeStream (stampHeader p.header b) p.payload <;>
    simp [hw, Except.isOk, Except.toBool]

/-! ## Claim C7: WriteSample tick computation -/

/-- The opus sample track after one successful bind: two bindings (see C2)
and a stored packetizer at clock rate 48000. -/
def boundOpusSampleTrack : TrackLocalStaticSample :=
  (demoSampleTrack.bind demoContext).1

/-- A packetize behaviour that stamps the tick advance it receives into the
timestamp of a single produced packet. -/
def probePacketize : PacketizeFn := fun _ data t =>
  [{ header := { ssrc := 0, payloadType := 0, timestamp := t }, payload := data }]

/-- A write-sink behaviour that fails exactly on packets whose timestamp is
960 (and succeeds on everything else), used to observe which tick advance the
packetizer was given. -/
def probeWorld : WriteWorld := fun _ h _ =>
  if h.timestamp == 960 then .error "timestamp960" else .ok 0

/-- A write-sink behaviour that always succeeds. -/
def demoOkWorld : WriteWorld := fun _ _ _ => .ok 0

/-- A 0.02 second sample (20000000 nanoseconds). -/
def demoSample20ms : Sample := { data := [1], durationNs := 20000000 }

/-- A sample one nanosecond short of 0.02 seconds whose exact tick value
959.999952 separates truncation (959) from rounding to nearest (960). -/
def demoSampleShort : Sample := { data := [1], durationNs := 19999999 }

/-- C7 counterexample: on the bound opus track, a sample of 19999999 ns
yields no packet with timestamp 960 (the probe world errors exactly on such
packets and the call returns nil), so the packetizer received 959 ticks —
yet the nearest integer to 959.999952 is 960; rounding to nearest, as the
claim states the computation, is refuted. The 0.02 s control sample does
produce timestamp-960 packets through both bindings. -/
theorem writeSample_not_rounded_to_nearest :
    boundOpusSampleTrack.writeSample probePacketize probeWorld demoSampleShort = none ∧
    sampleTicksNearest 19999999 48000 = 960 ∧
    boundOpusSampleTrack.writeSample probePacketize probeWorld demoSample20ms =
      some [["timestamp960", "timestamp960"]] := by
  decide

/-- C7 amended: after a successful bind, `WriteSample` hands the packetizer a
tick advance computed as `durationSeconds × clockRate` truncated toward zero
(the floor, as the two bounding inequalities state), not rounded to nearest;
the claimed instance still holds: 0.02 s at 48000 Hz advances exactly 960
ticks, the product being an integer. -/
theorem writeSample_truncates_ticks (s : TrackLocalStaticSample)
    (pk : PacketizeFn) (world : WriteWorld) (sample : Sample) (p : Packetizer)
    (hp : s.packetizer = some p) :
    s.writeSample pk world sample =
      flattenErrs ((pk p sample.data
          (sampleTicks sample.durationNs s.rtpTrack.codec.clockRate)).filterMap
        (fun q => s.rtpTrack.writeRTP world q)) ∧
    sampleTicks sample.durationNs s.rtpTrack.codec.clockRate * 1000000000 ≤
      sample.durationNs * s.rtpTrack.codec.clockRate ∧
    sample.durationNs * s.rtpTrack.codec.clockRate <
      (sampleTicks sample.durationNs s.rtpTrack.codec.clockRate + 1) * 1000000000 ∧
    sampleTicks 20000000 48000 = 960 := by
  refine ⟨?_, ?_, ?_, by decide⟩
  · simp [TrackLocalStaticSample.writeSample, hp]
  · unfold sampleTicks
    generalize sample.durationNs * s.rtpTrack.codec.clockRate = k
    omega
  · unfold sampleTicks
    generalize sample.durationNs * s.rtpTrack.codec.clockRate = k
    omega

/-- C7 witness: the bound opus track, the probe packetizer, the succeeding
world and the 0.02 second sample. -/
theorem writeSample_truncates_ticks_witness :
    boundOpusSampleTrack.writeSample probePacketize demoOkWorld demoSample20ms =
      flattenErrs ((probePacketize
          { mtu := 1200, payloadType := 0, ssrc := 0, payloader := .opus,
            clockRate := 48000 } demoSample20ms.data
          (sampleTicks demoSample20ms.durationNs
            boundOpusSampleTrack.rtpTrack.codec.clockRate)).filterMap
        (fun q => boundOpusSampleTrack.rtpTrack.writeRTP demoOkWorld q)) ∧
    sampleTicks demoSample20ms.durationNs
        boundOpusSampleTrack.rtpTrack.codec.clockRate * 1000000000 ≤
      demoSample20ms.durationNs * boundOpusSampleTrack.rtpTrack.codec.clockRate ∧
    demoSample20ms.durationNs * boundOpusSampleTrack.rtpTrack.codec.clockRate <
      (sampleTicks demoSample20ms.durationNs
        boundOpusSampleTrack.rtpTrack.codec.clockRate + 1) * 1000000000 ∧
    sampleTicks 20000000 48000 = 960 :=
  writeSample_truncates_ticks boundOpusSampleTrack probePacketize demoOkWorld
    demoSample20ms
    { mtu := 1200, payloadType := 0, ssrc := 0, payloader := .opus,
      clockRate := 48000 } (by decide)

/-! ## Claim C8: header extension registration merges kinds -/

/-- Lookup of a header extension entry by URI (first match; under the
uniqueness invariant the catalog has at most one). -/
def findHeaderExtension (hes : List mediaEngineHeaderExtension) (uri : String) :
    Option mediaEngineHeaderExtension :=
  hes.find? (fun e => e.uri == uri)

/-- Number of catalog entries carrying the given URI. -/
def countUri (hes : List mediaEngineHeaderExtension) (uri : String) : Nat :=
  hes.countP (fun e => e.uri == uri)

/-- URI-uniqueness of a header extension catalog. -/
def HENodup (hes : List mediaEngineHeaderExtension) : Prop :=
  (hes.map (fun e => e.uri)).Nodup

/-- Header extension catalogs reachable through the registration API,
starting from the zero-valued registry. -/
inductive ReachableHE : List mediaEngineHeaderExtension → Prop where
  | nil : ReachableHE []
  | step (l : List mediaEngineHeaderExtension) (uri : String) (typ : RTPCodecType) :
      ReachableHE l → ReachableHE (registerHeaderExtensionList l uri typ)

/-- The lookup loop misses exactly when no entry carries the URI. -/
theorem lastMatchIdx_eq_none {uri : String} :
    ∀ {l : List mediaEngineHeaderExtension},
    lastMatchIdx uri l = none ↔ ∀ e ∈ l, e.uri ≠ uri := by
  intro l
  induction l with
  | nil => simp [lastMatchIdx]
  | cons e rest ih =>
    cases h : lastMatchIdx uri rest with
    | some i =>
      have hex : ¬ ∀ x ∈ rest, x.uri ≠ uri := by
        intro hall
        rw [← ih] at hall
        simp [h] at hall
      simp [lastMatchIdx, h, hex]
    | none =>
      have hall := ih.mp h
      by_cases he : e.uri = uri
      · simp [lastMatchIdx, h, he]
      · simp [lastMatchIdx, h, he]
        exact hall

/-- A lookup hit is in bounds and points at an entry carrying the URI. -/
theorem lastMatchIdx_some {uri : String} :
    ∀ {l : List mediaEngineHeaderExtension} {i : Nat},
    lastMatchIdx uri l = some i →
    i < l.length ∧ (l.getD i emptyHeaderExtension).uri = uri := by
  intro l
  induction l with
  | nil => intro i h; simp [lastMatchIdx] at h
  | cons e rest ih =>
    intro i h
    cases hr : lastMatchIdx uri rest with
    | some j =>
      rw [lastMatchIdx, hr] at h
      obtain rfl : j + 1 = i := by simpa using h
      obtain ⟨hlt, hgd⟩ := ih hr
      exact ⟨Nat.succ_lt_succ hlt, by simpa using hgd⟩
    | none =>
      rw [lastMatchIdx, hr] at h
      by_cases he : e.uri = uri
      · simp [he] at h
        obtain rfl : 0 = i := h
        simpa using he
      · simp [he] at h

/-- Under URI uniqueness, the lookup finds any in-bounds entry carrying the
URI (there is only one). -/
theorem lastMatchIdx_eq_of_nodup {uri : String} :
    ∀ {l : List mediaEngineHeaderExtension} {i : Nat}, HENodup l →
    i < l.length → (l.getD i emptyHeaderExtension).uri = uri →
    lastMatchIdx uri l = some i := by
  intro l
  induction l with
  | nil => intro i _ hlt _; simp at hlt
  | cons e rest ih =>
    intro i hnd hlt hgd
    have hnd2 : e.uri ∉ rest.map (fun x => x.uri) ∧ HENodup rest := by
      simpa [HENodup, List.nodup_cons] using hnd
    cases i with
    | zero =>
      have he : e.uri = uri := by simpa using hgd
      have hnone : lastMatchIdx uri rest = none := by
        rw [lastMatchIdx_eq_none]
        intro x hx hxu
        exact hnd2.1 (he ▸ hxu ▸ List.mem_map_of_mem (fun y => y.uri) hx)
      rw [lastMatchIdx, hnone]
      simp [he]
    | succ j =>
      have hlt2 : j < rest.length := Nat.lt_of_succ_lt_succ hlt
      have hgd2 : (rest.getD j emptyHeaderExtension).uri = uri := by
        simpa using hgd
      rw [lastMatchIdx, ih hnd2.2 hlt2 hgd2]

/-- Header extension updates always write the URI they were given. -/
@[simp] theorem applyHeaderExtension_uri (e : mediaEngineHeaderExtension)
    (uri : String) (typ : RTPCodecType) (i : Nat) :
    (applyHeaderExtension e uri typ i).uri = uri := by
  cases typ <;> rfl

/-- Header extension updates always write the index they were given as id. -/
@[simp] theorem applyHeaderExtension_id (e : mediaEngineHeaderExtension)
    (uri : String) (typ : RTPCodecType) (i : Nat) :
    (applyHeaderExtension e uri typ i).id = i := by
  cases typ <;> rfl

/-- Registering for audio sets the audio flag and preserves the video flag;
conversely for video. -/
theorem applyHeaderExtension_flags (e : mediaEngineHeaderExtension)
    (uri : String) (i : Nat) :
    (applyHeaderExtension e uri .audio i).isAudio = true ∧
    (applyHeaderExtension e uri .audio i).isVideo = e.isVideo ∧
    (applyHeaderExtension e uri .video i).isVideo = true ∧
    (applyHeaderExtension e uri .video i).isAudio = e.isAudio :=
  ⟨rfl, rfl, rfl, rfl⟩

/-- `getD` at the index just appended past a list. -/
theorem getD_append_length (l : List mediaEngineHeaderExtension)
    (x d : mediaEngineHeaderExtension) : (l ++ [x]).getD l.length d = x := by
  induction l with
  | nil => rfl
  | cons e rest _ => simp

/-- `set` at the index just appended past a list. -/
theorem set_append_length (l : List mediaEngineHeaderExtension)
    (x y : mediaEngineHeaderExtension) : (l ++ [x]).set l.length y = l ++ [y] := by
  induction l with
  | nil => rfl
  | cons e rest ih =>
    show e :: (rest ++ [x]).set rest.length y = e :: (rest ++ [y])
    rw [ih]

/-- `getD` after `set` at the same in-bounds index. -/
theorem getD_set_self :
    ∀ (l : List mediaEngineHeaderExtension) (i : Nat)
      (e2 d : mediaEngineHeaderExtension), i < l.length →
    (l.set i e2).getD i d = e2
  | [], i, _, _, h => by simp at h
  | e :: rest, 0, e2, d, _ => rfl
  | e :: rest, i + 1, e2, d, h =>
    getD_set_self rest i e2 d (Nat.lt_of_succ_lt_succ (by simpa using h))

/-- Replacing an entry by one carrying the same URI leaves the URI sequence
unchanged. -/
theorem map_uri_set :
    ∀ (l : List mediaEngineHeaderExtension) (i : Nat)
      (e2 : mediaEngineHeaderExtension), i < l.length →
    e2.uri = (l.getD i emptyHeaderExtension).uri →
    (l.set i e2).map (fun e => e.uri) = l.map (fun e => e.uri)
  | [], i, _, h, _ => by simp at h
  | e :: rest, 0, e2, _, hu => by simp_all
  | e :: rest, i + 1, e2, h, hu => by
    have := map_uri_set rest i e2 (Nat.lt_of_succ_lt_succ (by simpa using h))
      (by simpa using hu)
    simp_all

/-- The shape of a registration that found its URI in the catalog. -/
theorem registerHeaderExtensionList_present {uri : String}
    {l : List mediaEngineHeaderExtension} {i : Nat} (typ : RTPCodecType)
    (h : lastMatchIdx uri l = some i) :
    registerHeaderExtensionList l uri typ =
      l.set i (applyHeaderExtension (l.getD i emptyHeaderExtension) uri typ i) := by
  rw [registerHeaderExtensionList, h]

/-- The shape of a registration whose URI is new: the updated zero entry is
appended, at index (and hence with id) equal to the old length. -/
theorem registerHeaderExtensionList_absent {uri : String}
    {l : List mediaEngineHeaderExtension} (typ : RTPCodecType)
    (h : lastMatchIdx uri l = none) :
    registerHeaderExtensionList l uri typ =
      l ++ [applyHeaderExtension emptyHeaderExtension uri typ l.length] := by
  rw [registerHeaderExtensionList, h]
  show (l ++ [emptyHeaderExtension]).set ((l ++ [emptyHeaderExtension]).length - 1)
      (applyHeaderExtension
        ((l ++ [emptyHeaderExtension]).getD ((l ++ [emptyHeaderExtension]).length - 1)
          emptyHeaderExtension)
        uri typ ((l ++ [emptyHeaderExtension]).length - 1)) = _
  have hlen : (l ++ [emptyHeaderExtension]).length - 1 = l.length := by simp
  rw [hlen, getD_append_length, set_append_length]

/-- Under URI uniqueness, looking up the URI after replacing the unique
carrying entry by another entry with that URI yields the replacement. -/
theorem find?_set_unique {uri : String} :
    ∀ {l : List mediaEngineHeaderExtension} {i : Nat}
      {e2 : mediaEngineHeaderExtension}, HENodup l → i < l.length →
    (l.getD i emptyHeaderExtension).uri = uri → e2.uri = uri →
    (l.set i e2).find? (fun e => e.uri == uri) = some e2 := by
  intro l
  induction l with
  | nil => intro i _ _ hlt; simp at hlt
  | cons e rest ih =>
    intro i e2 hnd hlt hgd he2
    have hnd2 : e.uri ∉ rest.map (fun x => x.uri) ∧ HENodup rest := by
      simpa [HENodup, List.nodup_cons] using hnd
    cases i with
    | zero =>
      have he2b : (e2.uri == uri) = true := by simpa using he2
      simp [List.set, List.find?, he2b]
    | succ j =>
      have hlt2 : j < rest.length := Nat.lt_of_succ_lt_succ (by simpa using hlt)
      have hgd2 : (rest.getD j emptyHeaderExtension).uri = uri := by simpa using hgd
      have hmem : uri ∈ rest.map (fun x => x.uri) := by
        have hg := List.getD_eq_getElem (l := rest) (d := emptyHeaderExtension) hlt2
        rw [hg] at hgd2
        exact hgd2 ▸ List.mem_map_of_mem (fun x => x.uri) (List.getElem_mem hlt2)
      have hne : (e.uri == uri) = false := by
        simp only [beq_eq_false_iff_ne, ne_eq]
        intro hc
        exact hnd2.1 (hc ▸ hmem)
      have hrec := ih hnd2.2 hlt2 hgd2 he2
      simp only [List.set, List.find?, hne]
      exact hrec

/-- Looking up a URI absent from the catalog after appending an entry
carrying it yields the appended entry. -/
theorem find?_append_of_none {uri : String} :
    ∀ {l : List mediaEngineHeaderExtension} {x : mediaEngineHeaderExtension},
    (∀ e ∈ l, e.uri ≠ uri) → x.uri = uri →
    (l ++ [x]).find? (fun e => e.uri == uri) = some x := by
  intro l
  induction l with
  | nil =>
    intro x _ hx
    have hxb : (x.uri == uri) = true := by simpa using hx
    simp [List.find?, hxb]
  | cons e rest ih =>
    intro x hall hx
    have hne : (e.uri == uri) = false := by
      simp only [beq_eq_false_iff_ne, ne_eq]
      exact hall e (List.mem_cons_self e rest)
    have hrec := ih (fun y hy => hall y (List.mem_cons_of_mem e hy)) hx
    simp only [List.cons_append, List.find?, hne]
    exact hrec

/-- A catalog without the URI counts zero entries for it. -/
theorem countUri_eq_zero {uri : String} {l : List mediaEngineHeaderExtension}
    (h : ∀ e ∈ l, e.uri ≠ uri) : countUri l uri = 0 := by
  unfold countUri
  rw [List.countP_eq_zero]
  intro e he
  simpa using h e he

/-- Under URI uniqueness, a catalog carrying the URI at some in-bounds index
counts exactly one entry for it. -/
theorem countUri_eq_one {uri : String} :
    ∀ {l : List mediaEngineHeaderExtension} {i : Nat}, HENodup l →
    i < l.length → (l.getD i emptyHeaderExtension).uri = uri →
    countUri l uri = 1 := by
  intro l
  induction l with
  | nil => intro i _ hlt; simp at hlt
  | cons e rest ih =>
    intro i hnd hlt hgd
    have hnd2 : e.uri ∉ rest.map (fun x => x.uri) ∧ HENodup rest := by
      simpa [HENodup, List.nodup_cons] using hnd
    cases i with
    | zero =>
      have he : e.uri = uri := by simpa using hgd
      have hrest : countUri rest uri = 0 := by
        refine countUri_eq_zero fun x hx hxu => ?_
        exact hnd2.1 (he ▸ hxu ▸ List.mem_map_of_mem (fun y => y.uri) hx)
      have heb : (e.uri == uri) = true := by simpa using he
      simp [countUri, List.countP_cons, heb]
      simpa [countUri] using hrest
    | succ j =>
      have hlt2 : j < rest.length := Nat.lt_of_succ_lt_succ (by simpa using hlt)
      have hgd2 : (rest.getD j emptyHeaderExtension).uri = uri := by simpa using hgd
      have hmem : uri ∈ rest.map (fun x => x.uri) := by
        have hg := List.getD_eq_getElem (l := rest) (d := emptyHeaderExtension) hlt2
        rw [hg] at hgd2
        exact hgd2 ▸ List.mem_map_of_mem (fun x => x.uri) (List.getElem_mem hlt2)
      have hne : (e.uri == uri) = false := by
        simp only [beq_eq_false_iff_ne, ne_eq]
        intro hc
        exact hnd2.1 (hc ▸ hmem)
      have hrest := ih hnd2.2 hlt2 (by simpa using hgd)
      simp [countUri, List.countP_cons, hne]
      simpa [countUri] using hrest

/-- Registration preserves URI uniqueness of the catalog. -/
theorem registerHeaderExtensionList_nodup {l : List mediaEngineHeaderExtension}
    {uri : String} (typ : RTPCodecType) (hnd : HENodup l) :
    HENodup (registerHeaderExtensionList l uri typ) := by
  cases h : lastMatchIdx uri l with
  | some i =>
    obtain ⟨hlt, hgd⟩ := lastMatchIdx_some h
    rw [registerHeaderExtensionList_present typ h]
    unfold HENodup
    rw [map_uri_set l i _ hlt (by rw [applyHeaderExtension_uri]; exact hgd.symm)]
    exact hnd
  | none =>
    rw [registerHeaderExtensionList_absent typ h]
    unfold HENodup
    rw [List.map_append, List.nodup_append]
    refine ⟨hnd, by simp, ?_⟩
    intro u hu hx
    simp only [List.map_cons, List.map_nil, List.mem_singleton,
      applyHeaderExtension_uri] at hx
    obtain ⟨e, he, rfl⟩ := List.mem_map.mp hu
    exact (lastMatchIdx_eq_none.mp h e he) hx

/-- What one registration produces: a unique entry for the URI, obtained by
applying the field updates at its (stable) index, the rest of the catalog
untouched in its URI sequence. -/
theorem registerHeaderExtensionList_core (l : List mediaEngineHeaderExtension)
    (uri : String) (typ : RTPCodecType) (hnd : HENodup l) :
    ∃ i e0,
      i < (registerHeaderExtensionList l uri typ).length ∧
      (registerHeaderExtensionList l uri typ).getD i emptyHeaderExtension =
        applyHeaderExtension e0 uri typ i ∧
      findHeaderExtension (registerHeaderExtensionList l uri typ) uri =
        some (applyHeaderExtension e0 uri typ i) ∧
      HENodup (registerHeaderExtensionList l uri typ) ∧
      countUri (registerHeaderExtensionList l uri typ) uri = 1 := by
  have hnd2 := @registerHeaderExtensionList_nodup l uri typ hnd
  cases h : lastMatchIdx uri l with
  | some i =>
    obtain ⟨hlt, hgd⟩ := lastMatchIdx_some h
    refine ⟨i, l.getD i emptyHeaderExtension, ?_, ?_, ?_, hnd2, ?_⟩
    · rw [registerHeaderExtensionList_present typ h]
      simpa using hlt
    · rw [registerHeaderExtensionList_present typ h]
      exact getD_set_self l i _ _ hlt
    · rw [registerHeaderExtensionList_present typ h]
      exact find?_set_unique hnd hlt hgd (by simp)
    · refine countUri_eq_one hnd2 (i := i) ?_ ?_
      · rw [registerHeaderExtensionList_present typ h]
        simpa using hlt
      · rw [registerHeaderExtensionList_present typ h]
        rw [getD_set_self l i _ _ hlt]
        simp
  | none =>
    refine ⟨l.length, emptyHeaderExtension, ?_, ?_, ?_, hnd2, ?_⟩
    · rw [registerHeaderExtensionList_absent typ h]
      simp
    · rw [registerHeaderExtensionList_absent typ h]
      exact getD_append_length l _ _
    · rw [registerHeaderExtensionList_absent typ h]
      exact find?_append_of_none (lastMatchIdx_eq_none.mp h) (by simp)
    · refine countUri_eq_one hnd2 (i := l.length) ?_ ?_
      · rw [registerHeaderExtensionList_absent typ h]
        simp
      · rw [registerHeaderExtensionList_absent typ h]
        rw [getD_append_length l _ _]
        simp

/-- Registering the same URI twice composes: the second registration finds
the entry created or updated by the first, at the same index, and applies its
field updates in place; the catalog keeps exactly one entry for the URI. -/
theorem registerHeaderExtensionList_twice (l : List mediaEngineHeaderExtension)
    (uri : String) (typ1 typ2 : RTPCodecType) (hnd : HENodup l) :
    ∃ i e0,
      findHeaderExtension (registerHeaderExtensionList l uri typ1) uri =
        some (applyHeaderExtension e0 uri typ1 i) ∧
      findHeaderExtension
          (registerHeaderExtensionList (registerHeaderExtensionList l uri typ1)
            uri typ2) uri =
        some (applyHeaderExtension (applyHeaderExtension e0 uri typ1 i) uri typ2 i) ∧
      countUri (registerHeaderExtensionList (registerHeaderExtensionList l uri typ1)
        uri typ2) uri = 1 := by
  obtain ⟨i, e0, hlt, hgd, hfind, hnd1, _⟩ :=
    registerHeaderExtensionList_core l uri typ1 hnd
  set l1 := registerHeaderExtensionList l uri typ1 with hl1
  have hlast : lastMatchIdx uri l1 = some i :=
    lastMatchIdx_eq_of_nodup hnd1 hlt (by rw [hgd]; simp)
  have hpres := registerHeaderExtensionList_present typ2 hlast
  rw [hgd] at hpres
  have hnd2 := @registerHeaderExtensionList_nodup l1 uri typ2 hnd1
  refine ⟨i, e0, hfind, ?_, ?_⟩
  · rw [hpres]
    exact find?_set_unique hnd1 hlt (by rw [hgd]; simp) (by simp)
  · refine countUri_eq_one hnd2 (i := i) ?_ ?_
    · rw [hpres]
      simpa using hlt
    · rw [hpres, getD_set_self l1 i _ _ hlt]
      simp

/-- Every reachable catalog has pairwise distinct URIs. -/
theorem ReachableHE.hENodup {l : List mediaEngineHeaderExtension}
    (h : ReachableHE l) : HENodup l := by
  induction h with
  | nil => simp [HENodup]
  | step l2 uri typ _ ih => exact @registerHeaderExtensionList_nodup l2 uri typ ih

/-- C8: on any registry whose header extension catalog arose through the
registration API, registering the same URI once for audio and once for video
(in either order) yields exactly one entry for that URI, carrying both kind
flags, with an id equal to the id assigned by the first of the two
registrations. -/
theorem registerHeaderExtension_merges_kinds (m : MediaEngine) (uri : String)
    (hr : ReachableHE m.headerExtensions) :
    (countUri ((m.registerHeaderExtension ⟨uri⟩ .audio).registerHeaderExtension
        ⟨uri⟩ .video).headerExtensions uri = 1 ∧
      (findHeaderExtension ((m.registerHeaderExtension ⟨uri⟩
            .audio).registerHeaderExtension ⟨uri⟩ .video).headerExtensions uri).map
        (fun e => (e.isAudio, e.isVideo)) = some (true, true) ∧
      (findHeaderExtension ((m.registerHeaderExtension ⟨uri⟩
            .audio).registerHeaderExtension ⟨uri⟩ .video).headerExtensions uri).map
        (fun e => e.id) =
      (findHeaderExtension (m.registerHeaderExtension ⟨uri⟩
          .audio).headerExtensions uri).map (fun e => e.id)) ∧
    (countUri ((m.registerHeaderExtension ⟨uri⟩ .video).registerHeaderExtension
        ⟨uri⟩ .audio).headerExtensions uri = 1 ∧
      (findHeaderExtension ((m.registerHeaderExtension ⟨uri⟩
            .video).registerHeaderExtension ⟨uri⟩ .audio).headerExtensions uri).map
        (fun e => (e.isAudio, e.isVideo)) = some (true, true) ∧
      (findHeaderExtension ((m.registerHeaderExtension ⟨uri⟩
            .video).registerHeaderExtension ⟨uri⟩ .audio).headerExtensions uri).map
        (fun e => e.id) =
      (findHeaderExtension (m.registerHeaderExtension ⟨uri⟩
          .video).headerExtensions uri).map (fun e => e.id)) := by
  have hnd := ReachableHE.hENodup hr
  constructor
  · obtain ⟨i, e0, hf1, hf2, hc⟩ :=
      registerHeaderExtensionList_twice m.headerExtensions uri .audio .video hnd
    simp only [MediaEngine.registerHeaderExtension]
    refine ⟨hc, ?_, ?_⟩
    · rw [hf2]
      simp [applyHeaderExtension]
    · rw [hf2, hf1]
      simp
  · obtain ⟨i, e0, hf1, hf2, hc⟩ :=
      registerHeaderExtensionList_twice m.headerExtensions uri .video .audio hnd
    simp only [MediaEngine.registerHeaderExtension]
    refine ⟨hc, ?_, ?_⟩
    · rw [hf2]
      simp [applyHeaderExtension]
    · rw [hf2, hf1]
      simp

/-- C8 witness: the zero-valued registry and the mid URI. -/
theorem registerHeaderExtension_merges_kinds_witness :
    (countUri ((emptyMediaEngine.registerHeaderExtension ⟨"urn:mid"⟩
        .audio).registerHeaderExtension ⟨"urn:mid"⟩ .video).headerExtensions
        "urn:mid" = 1 ∧
      (findHeaderExtension ((emptyMediaEngine.registerHeaderExtension ⟨"urn:mid"⟩
            .audio).registerHeaderExtension ⟨"urn:mid"⟩ .video).headerExtensions
          "urn:mid").map (fun e => (e.isAudio, e.isVideo)) = some (true, true) ∧
      (findHeaderExtension ((emptyMediaEngine.registerHeaderExtension ⟨"urn:mid"⟩
            .audio).registerHeaderExtension ⟨"urn:mid"⟩ .video).headerExtensions
          "urn:mid").map (fun e => e.id) =
      (findHeaderExtension (emptyMediaEngine.registerHeaderExtension ⟨"urn:mid"⟩
          .audio).headerExtensions "urn:mid").map (fun e => e.id)) ∧
    (countUri ((emptyMediaEngine.registerHeaderExtension ⟨"urn:mid"⟩
        .video).registerHeaderExtension ⟨"urn:mid"⟩ .audio).headerExtensions
        "urn:mid" = 1 ∧
      (findHeaderExtension ((emptyMediaEngine.registerHeaderExtension ⟨"urn:mid"⟩
            .video).registerHeaderExtension ⟨"urn:mid"⟩ .audio).headerExtensions
          "urn:mid").map (fun e => (e.isAudio, e.isVideo)) = some (true, true) ∧
      (findHeaderExtension ((emptyMediaEngine.registerHeaderExtension ⟨"urn:mid"⟩
            .video).registerHeaderExtension ⟨"urn:mid"⟩ .audio).headerExtensions
          "urn:mid").map (fun e => e.id) =
      (findHeaderExtension (emptyMediaEngine.registerHeaderExtension ⟨"urn:mid"⟩
          .video).headerExtensions "urn:mid").map (fun e => e.id)) :=
  registerHeaderExtension_merges_kinds emptyMediaEngine "urn:mid" ReachableHE.nil

end Webrtc
